import Mathlib

/-!
Verification of the view-fragment synchronization engine of `vodoo.py`
(a CLI helper that syncs Odoo `ir.ui.view` records against XML source
files), as a shallow embedding in Lean.

Conventions used throughout:
* Python tuples `(nw, ne, nc)` of warning/error/commit counters become the
  `SyncResult` structure.
* The filesystem and the database cursor are modelled by an explicit
  environment `VEnv`; `cr.execute("UPDATE ir_ui_view SET arch_db = ...")`
  statements are recorded in an output list of `ArchWrite`s (a write is
  recorded only when the statement succeeds).
* XML documents are element trees (`XmlNode`); text nodes are not needed by
  any property below and are omitted.  `ET.tostring` is `tostring`.
* Python falsy-or on optional strings is modelled with `Option String`
  (`none` stands for an absent or empty value).
* Timestamps (`datetime.now()`) are naturals counted in milliseconds, so
  `timedelta(seconds=1)` is `1000`.
-/

/-- The (warnings, errors, commits) tally returned by every operation
(`nw, ne, nc` in the source). -/
structure SyncResult where
  nw : Nat
  ne : Nat
  nc : Nat
deriving DecidableEq

/-- Componentwise sum of two tallies. -/
def SyncResult.add (a b : SyncResult) : SyncResult :=
  { nw := a.nw + b.nw, ne := a.ne + b.ne, nc := a.nc + b.nc }

/-- Sum of a list of tallies. -/
def sumResults (l : List SyncResult) : SyncResult :=
  l.foldl SyncResult.add { nw := 0, ne := 0, nc := 0 }

/-- An XML element: tag, attributes (in document order) and direct children
(in document order).  Models the `xml.etree.ElementTree` element objects. -/
inductive XmlNode where
  | elem (tag : String) (attrs : List (String × String)) (children : List XmlNode)

/-- Tag of an element. -/
def XmlNode.tag : XmlNode → String
  | .elem t _ _ => t

/-- Attribute list of an element. -/
def XmlNode.attrList : XmlNode → List (String × String)
  | .elem _ a _ => a

/-- Direct children of an element (`list(elem)` in the source). -/
def XmlNode.children : XmlNode → List XmlNode
  | .elem _ _ cs => cs

/-- `elem.get(key)`: first attribute with the given key. -/
def getAttr (n : XmlNode) (key : String) : Option String :=
  (n.attrList.find? (fun kv => kv.1 == key)).map (fun kv => kv.2)

mutual

/-- `ET.tostring(elem)`: serialize one element to markup. -/
def tostring : XmlNode → String
  | .elem t attrs cs =>
      "<" ++ t ++ attrsStr attrs ++
        (if cs.isEmpty then " />" else ">" ++ tostringList cs ++ "</" ++ t ++ ">")

/-- Serialize a list of sibling elements in document order. -/
def tostringList : List XmlNode → String
  | [] => ""
  | x :: xs => tostring x ++ tostringList xs

/-- Serialize an attribute list as ` key="value"` pieces. -/
def attrsStr : List (String × String) → String
  | [] => ""
  | kv :: rest => " " ++ kv.1 ++ "=" ++ "\"" ++ kv.2 ++ "\"" ++ attrsStr rest

end

/-- The single-quote character (written via its code point to keep source
quoting unambiguous). -/
def quoteChar : Char := Char.ofNat 39

/-- The backslash character. -/
def backslashChar : Char := Char.ofNat 92

/-- Escape one character the way line 367 of the source does.  The source
performs `.replace(double-quote, backslash double-quote)` followed by
`.replace(single-quote, backslash single-quote)`; since both patterns are
single characters and the first replacement introduces no single quote, the
two sequential replaces are exactly this character-wise map. -/
def escChar (c : Char) : List Char :=
  if c == '"' then [backslashChar, '"']
  else if c == quoteChar then [backslashChar, quoteChar]
  else [c]

/-- The quote-escaping pass applied to the serialized arch before it is
embedded in the SQL literal. -/
def escapeSql (s : String) : String := ⟨s.data.flatMap escChar⟩

/-- One character is acceptable at its position: it is not a quote, or the
preceding character is a backslash. -/
def quoteOk (prev : Option Char) (c : Char) : Bool :=
  !(c == '"' || c == quoteChar) || prev == some backslashChar

/-- Scan a character list remembering the previous character; `true` iff
every quote character is immediately preceded by a backslash. -/
def quotesEscapedAux : Option Char → List Char → Bool
  | _, [] => true
  | prev, c :: rest => quoteOk prev c && quotesEscapedAux (some c) rest

/-- Every quote character in the list is immediately preceded by a
backslash. -/
def quotesEscaped (l : List Char) : Bool := quotesEscapedAux none l

/-- Lines 356–367 of the source: build the replacement arch payload from the
located fragment `arch[0]` — concatenate `ET.tostring` of each direct child,
wrap in `<data>` when there is more than one child, prepend the XML
declaration, and escape quotes for the SQL literal. -/
def newArchOf (frag : XmlNode) : String :=
  let new_arch := frag.children.foldl (fun acc a => acc ++ tostring a) ""
  let new_arch :=
    if frag.children.length > 1 then "<data>" ++ new_arch ++ "</data>" else new_arch
  let new_arch := "<?xml version=" ++ "\"" ++ "1.0" ++ "\"" ++ "?>\n" ++ new_arch
  escapeSql new_arch

/-- The payload shape exactly as the specification words it: the
concatenation of the raw markup of the fragment's direct children in
document order, wrapped in a single data envelope exactly when the fragment
has more than one direct child, prefixed by the XML declaration header and a
newline, with every double-quote and single-quote escaped. -/
def specSerializePayload (frag : XmlNode) : String :=
  let concatChildren := String.join (frag.children.map tostring)
  let body :=
    if frag.children.length > 1 then "<data>" ++ concatChildren ++ "</data>"
    else concatChildren
  escapeSql ("<?xml version=" ++ "\"" ++ "1.0" ++ "\"" ++ "?>\n" ++ body)

mutual

/-- All proper descendant elements of a node in document (preorder)
order — the elements searched by a `.//`-style path. -/
def descendants : XmlNode → List XmlNode
  | .elem _ _ cs => descList cs

/-- Helper for `descendants`: each listed node followed by its own
descendants. -/
def descList : List XmlNode → List XmlNode
  | [] => []
  | c :: cs => c :: descendants c ++ descList cs

end

/-- `root.findall(".//record[@id=rid]/field[@name=arch]")` (line 338):
all `field` children with `name="arch"` of all descendant `record` elements
whose `id` equals `rid`, in document order. -/
def findRecordArch (rid : String) (root : XmlNode) : List XmlNode :=
  ((descendants root).filter
      (fun n => n.tag == "record" && getAttr n "id" == some rid)).flatMap
    (fun r => r.children.filter
      (fun f => f.tag == "field" && getAttr f "name" == some "arch"))

/-- `root.findall(".//template[@id=rid]")` (line 340; the source repeats the
same call twice joined by `or`, which is equivalent to the single call):
all descendant `template` elements whose `id` equals `rid`. -/
def findTemplates (rid : String) (root : XmlNode) : List XmlNode :=
  (descendants root).filter
    (fun n => n.tag == "template" && getAttr n "id" == some rid)

/-- Line 334: `rid = _source_id or (percent not in _id and _id or
ir_model_data_name)` — an explicit source id wins; otherwise the requested
id unless it contains a wildcard or is empty, in which case the record's
own `ir_model_data.name`. -/
def ridOf (_source_id : Option String) (_id ir_model_data_name : String) : String :=
  match _source_id with
  | some s => s
  | none =>
      if !(_id.data.any (fun c => c == '%')) && !(_id == "") then _id
      else ir_model_data_name

/-- Result of reading one file path: the file is absent, it exists but
does not parse, or it parses to a document root. -/
inductive FileResult where
  | missing
  | parseFailed
  | doc (root : XmlNode)

/-- The environment a synchronization pass runs in: the state of the
filesystem (`os.path.exists` / `ET.parse`) and whether the SQL UPDATE for a
given view id succeeds. -/
structure VEnv where
  readFile : String → FileResult
  updateOk : Nat → Bool

/-- `os.path.exists`: the path is not missing in the environment. -/
def fileExists (env : VEnv) (p : String) : Bool :=
  match env.readFile p with
  | .missing => false
  | _ => true

/-- One successfully executed `UPDATE ir_ui_view SET arch_db = ...`
statement: the escaped payload and the target view id. -/
structure ArchWrite where
  payload : String
  viewId : Nat
deriving DecidableEq

/-- Lines 347–380: given the list of located fragments, either report the
no-match error, or build the payload from the first match and execute the
UPDATE (a failing execute is caught and counted as one error). -/
def applyArch (env : VEnv) (viewId : Nat) (found : List XmlNode) :
    SyncResult × List ArchWrite :=
  match found with
  | [] => ({ nw := 0, ne := 1, nc := 0 }, [])
  | m :: _ =>
      let payload := newArchOf m
      if env.updateOk viewId then
        ({ nw := 0, ne := 0, nc := 1 }, [{ payload := payload, viewId := viewId }])
      else
        ({ nw := 0, ne := 1, nc := 0 }, [])

/-- Lines 310–382, `xml2arch`: resolve the file (a falsy/absent `fn` or a
missing file is the file-not-found error; a parse failure is one error),
pick the fragment lookup per view type (`form`/`tree` via record+arch field,
`qweb` via template, anything else one policy warning), then apply the
first match. -/
def xml2arch (env : VEnv) (_module _id ir_model_data_name : String)
    (ir_ui_view_id : Nat) (ir_ui_view_type : String)
    (_source_id : Option String) (fn : Option String) :
    SyncResult × List ArchWrite :=
  match fn with
  | none => ({ nw := 0, ne := 1, nc := 0 }, [])
  | some f =>
    match env.readFile f with
    | .missing => ({ nw := 0, ne := 1, nc := 0 }, [])
    | .parseFailed => ({ nw := 0, ne := 1, nc := 0 }, [])
    | .doc root =>
        let rid := ridOf _source_id _id ir_model_data_name
        if ir_ui_view_type == "form" || ir_ui_view_type == "tree" then
          applyArch env ir_ui_view_id (findRecordArch rid root)
        else if ir_ui_view_type == "qweb" then
          applyArch env ir_ui_view_id (findTemplates rid root)
        else
          ({ nw := 1, ne := 0, nc := 0 }, [])

/-- `os.path.join` for the relative stored paths used here. -/
def pathJoin (a b : String) : String := a ++ "/" ++ b

/-- First path in the list that exists on disk (the `for pt in addons_path`
loop of lines 560–564, which leaves `fn = False` when no candidate
exists). -/
def firstExisting (env : VEnv) : List String → Option String
  | [] => none
  | p :: ps => if fileExists env p then some p else firstExisting env ps

/-- Lines 556–568: pick the XML filename for one matched row.  When
`addons_path` is non-empty the explicit `--filename` is never consulted;
otherwise `_filename or ir_ui_view_arch_fs`. -/
def resolveFn (env : VEnv) (addons_path : List String) (_filename : Option String)
    (arch_fs : String) : Option String :=
  match addons_path with
  | [] => some (_filename.getD arch_fs)
  | _ :: _ => firstExisting env (addons_path.map (fun pt => pathJoin pt arch_fs))

/-- One row of the `ir_ui_view` ⋈ `ir_model_data` SELECT of lines 457–468,
in the column order the source unpacks (lines 524–531). -/
structure ViewRow where
  imd_id : Nat
  view_id : Nat
  model : String
  vtype : String
  arch_fs : String
  name : String
  active : Bool
  noupdate : Bool

/-- The per-row tallies a pass produces, for comparison with what the pass
returns. -/
def perRowResults (env : VEnv) (addons_path : List String) (_module _id : String)
    (_source_id _filename : Option String) (rows : List ViewRow) : List SyncResult :=
  rows.map (fun row =>
    (xml2arch env _module _id row.name row.view_id row.vtype _source_id
      (resolveFn env addons_path _filename row.arch_fs)).1)

/-- Lines 522–617 restricted to `model_op = arch`, non-watch: iterate the
matched rows, resolving the file and calling `xml2arch` for each.  Note the
source's line 582 `nw, ne, nc = xml2arch(...)` REASSIGNS the running tally
on every iteration (unlike the `+=` of the sibling branches); the embedding
reproduces that.  Afterwards, an empty row set forces `ne = 1`. -/
def update_view_arch (env : VEnv) (addons_path : List String) (_module _id : String)
    (_source_id _filename : Option String) (rows : List ViewRow) :
    SyncResult × List ArchWrite :=
  let out := rows.foldl
    (fun (acc : SyncResult × List ArchWrite) row =>
      let fn := resolveFn env addons_path _filename row.arch_fs
      let r := xml2arch env _module _id row.name row.view_id row.vtype _source_id fn
      (r.1, acc.2 ++ r.2))
    ({ nw := 0, ne := 0, nc := 0 }, [])
  if rows.isEmpty then ({ nw := out.1.nw, ne := 1, nc := out.1.nc }, out.2)
  else out

/-- `os.path.normpath`, modelled as the identity: the claims only compare
paths that are already in normalized form, and normalization is a pure
function of the string. -/
def normpath (s : String) : String := s

/-- The constructor arguments of `MyHandler` (lines 479–491): the fixed
per-binding data captured for the watch session. -/
structure HandlerCfg where
  module : String
  id : String
  model : String
  model_data_name : String
  view_id : Nat
  view_type : String
  source_id : Option String
  filename : String

/-- The mutable fields of `MyHandler`: `last_modified` (set once in
`__init__`, line 480) and the three running session counters. -/
structure HandlerState where
  last_modified : Nat
  nwarnings : Nat
  nerrors : Nat
  ncommits : Nat
deriving DecidableEq

/-- A filesystem event as `on_modified` receives it: the wall-clock time at
which it is handled, whether its runtime type is `FileModifiedEvent`, its
`event_type` string and its source path. -/
structure FsEvent where
  now : Nat
  isFileModifiedEvent : Bool
  event_type : String
  src_path : String

/-- What one `on_modified` invocation did: the new handler state, the
`xml2arch` tally when the event was accepted (`none` when it was dropped),
the successful UPDATE statements, and whether `cr.connection.commit()` was
issued. -/
structure EventOutcome where
  st : HandlerState
  res : Option SyncResult
  writes : List ArchWrite
  committed : Bool

/-- Lines 493–515, `MyHandler.on_modified`.  Faithful points: the time gate
compares `now` against `self.last_modified`, which the handler NEVER
updates; the `xml2arch` return `(nw, ne, nc)` is unpacked into local names
`_ne, _nw, _nc` in that (swapped) order, so `self.nerrors` receives the
warning count and `self.nwarnings` the error count; the commit test
`self.ncommits > 0` runs before the counters are updated. -/
def on_modified (env : VEnv) (cfg : HandlerCfg) (st : HandlerState) (ev : FsEvent) :
    EventOutcome :=
  if 1000 ≤ ev.now - st.last_modified then
    if ev.isFileModifiedEvent && ev.event_type == "modified" &&
        cfg.filename == normpath ev.src_path then
      let r := xml2arch env cfg.module cfg.id cfg.model_data_name cfg.view_id
        cfg.view_type cfg.source_id (some cfg.filename)
      { st := { last_modified := st.last_modified
                nwarnings := st.nwarnings + r.1.ne
                nerrors := st.nerrors + r.1.nw
                ncommits := st.ncommits + r.1.nc }
        res := some r.1
        writes := r.2
        committed := decide (0 < st.ncommits) }
    else { st := st, res := none, writes := [], committed := false }
  else { st := st, res := none, writes := [], committed := false }

/-- One delivered event together with the filesystem/database state at the
moment it is handled (the file content may change between events — that is
the point of watch mode). -/
structure SessionStep where
  env : VEnv
  ev : FsEvent

/-- Observed aggregate of a watch session: the final handler state plus
instrumentation — how many events were accepted (`xml2arch` calls), how many
commits were issued, the componentwise sum of the actual per-event tallies,
and all successful writes. -/
structure SessionOutcome where
  st : HandlerState
  calls : Nat
  commits : Nat
  total : SyncResult
  writes : List ArchWrite
deriving DecidableEq

/-- Run a sequence of events through `on_modified`, threading the handler
state and aggregating the observations. -/
def runSession (cfg : HandlerCfg) (st0 : HandlerState) (steps : List SessionStep) :
    SessionOutcome :=
  steps.foldl
    (fun acc step =>
      let o := on_modified step.env cfg acc.st step.ev
      { st := o.st
        calls := acc.calls + (if o.res.isSome then 1 else 0)
        commits := acc.commits + (if o.committed then 1 else 0)
        total := match o.res with | some r => acc.total.add r | none => acc.total
        writes := acc.writes ++ o.writes })
    { st := st0, calls := 0, commits := 0, total := { nw := 0, ne := 0, nc := 0 }
      writes := [] }

/-- Lines 999–1015 of `__main__`: after `call_operation` returns
`(nwarings, nerrors, ncommits)`, the connection is committed iff `nerrors`
is zero, `ncommits` is positive and — when the command carries a
confirmation request — the user answered yes. -/
def mainCommits (nerrors ncommits : Nat) (confirmRequired userYes : Bool) : Bool :=
  if nerrors ≠ 0 then false
  else if 0 < ncommits then (confirmRequired && userYes) || !confirmRequired
  else false

/-- The single-quote character as a one-character string, for building the
SQL literals the source interpolates. -/
def sqStr : String := ⟨[quoteChar]⟩

/-- Python `str.split(sep)` for a one-character separator, on character
lists. -/
def splitComma : List Char → List (List Char)
  | [] => [[]]
  | c :: rest =>
    let r := splitComma rest
    if c == ',' then [] :: r
    else
      match r with
      | [] => [[c]]
      | g :: gs => (c :: g) :: gs

/-- `s.split(',')`. -/
def splitOnComma (s : String) : List String := (splitComma s.data).map (fun l => ⟨l⟩)

/-- Fuel-driven substring replacement: replace each left-most occurrence of
`pat` and continue after it.  The fuel only needs to cover one step per
consumed character, so `s.length` is always enough. -/
def replaceFuel : Nat → List Char → List Char → List Char → List Char
  | 0, s, _, _ => s
  | fuel+1, s, pat, rep =>
    match s with
    | [] => []
    | c :: rest =>
      if pat.isPrefixOf s then rep ++ replaceFuel fuel (s.drop pat.length) pat rep
      else c :: replaceFuel fuel rest pat rep

/-- Python `str.replace`: replace all non-overlapping occurrences, left to
right (for the non-empty patterns used here). -/
def strReplace (s pat rep : String) : String :=
  if pat.data.isEmpty then s
  else ⟨replaceFuel s.data.length s.data pat.data rep.data⟩

/-- The `WHERE` fragment built by lines 211–216 of `list_model`. -/
def whereModel (_id _module : Option String) : String :=
  (match _id with
   | some s => "ir_model_data.name ilike " ++ sqStr ++ s ++ sqStr ++ " AND "
   | none => "") ++
  (match _module with
   | some s => "ir_model_data.module ilike " ++ sqStr ++ s ++ sqStr ++ " AND "
   | none => "")

/-- The query text of lines 193–218 after `.format`. -/
def listModelQry (model_name model_table _where orderby : String) : String :=
  "\nSELECT\n    imd.module,\n    imd.name,\n    t.name,\n    imd.model,\n    imd.noupdate\nFROM\n    ir_model_data as imd,\n    " ++
    model_table ++ " as t\nWHERE\n    " ++ _where ++ "\n    imd.model = " ++
    sqStr ++ model_name ++ sqStr ++ " AND\n    imd.res_id = " ++ model_table ++
    ".id\nORDER BY\n    " ++ orderby ++ "\n"

/-- Lines 175–226, `list_model`: validate the comma-separated `--order-by`
clause against the allowed tokens before anything touches the database
(`return 0, 1, 0` on failure), else rewrite the ordering tokens to column
names and execute the one SELECT.  The returned list is the SQL statements
executed. -/
def list_model (model_name model_table : String)
    (_id _module _order_by_arg : Option String) : SyncResult × List String :=
  let _order_by := _order_by_arg.getD "model"
  let _order_by_list := splitOnComma _order_by
  let _order_by_filtered := _order_by_list.filter
    (fun a => (["model", "module", "name"] : List String).contains a)
  if _order_by_list.length ≠ _order_by_filtered.length then
    ({ nw := 0, ne := 1, nc := 0 }, [])
  else
    let ob := strReplace (strReplace _order_by "name" (model_table ++ ".name"))
      "model" "ir_model_data.model"
    ({ nw := 0, ne := 0, nc := 0 },
      [listModelQry model_name model_table (whereModel _id _module) ob])

/-- The `WHERE` fragment built by lines 254–261 of `list_users`. -/
def whereUsers (_id _login : Option String) : String :=
  let w := (match _id with
    | some s => "id = " ++ s ++ " AND "
    | none => "") ++
    (match _login with
    | some s => "login ilike " ++ s ++ " AND "
    | none => "")
  if w == "" then "" else "WHERE " ++ w

/-- The query text of lines 242–263 after `.format`. -/
def listUsersQry (model_table _where orderby : String) : String :=
  "\nSELECT\n    id,\n    active,\n    login\nFROM\n    " ++ model_table ++ "\n" ++
    _where ++ "\nORDER BY\n    " ++ orderby ++ "\n"

/-- Lines 229–273, `list_users`: same validation-first shape as
`list_model` with allowed ordering tokens `id` and `login`, default
`id`. -/
def list_users (model_table : String) (_id _login _order_by_arg : Option String) :
    SyncResult × List String :=
  let _order_by := _order_by_arg.getD "id"
  let _order_by_list := splitOnComma _order_by
  let _order_by_filtered := _order_by_list.filter
    (fun a => (["id", "login"] : List String).contains a)
  if _order_by_list.length ≠ _order_by_filtered.length then
    ({ nw := 0, ne := 1, nc := 0 }, [])
  else
    ({ nw := 0, ne := 0, nc := 0 },
      [listUsersQry model_table (whereUsers _id _login) _order_by])

/-- ASCII lowering, `s.lower()` for the ASCII tokens `str2bool` accepts. -/
def lowerStr (s : String) : String := ⟨s.data.map Char.toLower⟩

/-- Lines 108–112, `str2bool`: accept exactly the six case-insensitive
tokens, raising `ValueError` (here `none`) otherwise; the parsed value is
membership in `[true, 1]`. -/
def str2bool (s : String) : Option Bool :=
  let v := lowerStr s
  if (["true", "false", "1", "0", "t", "f"] : List String).contains v then
    some ((["true", "1"] : List String).contains v)
  else none

/-- One row of the `ir_model_data` SELECT of lines 632–637, in unpacking
order (line 642). -/
structure DataRow where
  id : Nat
  name : String
  res_id : Nat
  model : String
  noupdate : Bool

/-- One successfully executed boolean UPDATE of `set_value`. -/
structure BoolWrite where
  table : String
  field : String
  value : Bool
  rowId : Nat
deriving DecidableEq

/-- Lines 620–667, `set_value`, after the id-presence guard of lines
627–629: for each matched row, parse `--value` with `str2bool` (a
`ValueError` is caught as one error) and stage the boolean UPDATE — on
`active` against the command's table after a model check, otherwise on
`ir_model_data.noupdate`.  An empty row set forces `ne = 1`. -/
def set_value (model_op model_name model_table : String) (value : String)
    (rows : List DataRow) : SyncResult × List BoolWrite :=
  let step := fun (acc : Nat × Nat × List BoolWrite) (row : DataRow) =>
    if model_op == "active" then
      if row.model ≠ model_name then (acc.1 + 1, acc.2.1, acc.2.2)
      else
        match str2bool value with
        | none => (acc.1 + 1, acc.2.1, acc.2.2)
        | some v =>
            (acc.1, acc.2.1 + 1, acc.2.2 ++
              [{ table := model_table, field := "active", value := v,
                 rowId := row.res_id }])
    else
      match str2bool value with
      | none => (acc.1 + 1, acc.2.1, acc.2.2)
      | some v =>
          (acc.1, acc.2.1 + 1, acc.2.2 ++
            [{ table := "ir_model_data", field := "noupdate", value := v,
               rowId := row.id }])
  let out := rows.foldl step (0, 0, [])
  if rows.isEmpty then ({ nw := 0, ne := 1, nc := out.2.1 }, out.2.2)
  else ({ nw := 0, ne := out.1, nc := out.2.1 }, out.2.2)

/-- Substring test on character lists. -/
def containsSubL : List Char → List Char → Bool
  | [], sub => sub.isEmpty
  | c :: rest, sub => sub.isPrefixOf (c :: rest) || containsSubL rest sub

/-- `sub in s` on strings. -/
def containsSub (s sub : String) : Bool := containsSubL s.data sub.data

lemma foldl_append_tostring (cs : List XmlNode) :
    cs.foldl (fun acc a => acc ++ tostring a) "" = String.join (cs.map tostring) := by
  rw [String.join, List.foldl_map]

lemma quotesEscapedAux_flatMap (l : List Char) :
    ∀ prev, quotesEscapedAux prev (l.flatMap escChar) = true := by
  induction l with
  | nil => intro prev; rfl
  | cons c rest ih =>
      intro prev
      show quotesEscapedAux prev (escChar c ++ rest.flatMap escChar) = true
      have hbq : (backslashChar == '"' || backslashChar == quoteChar) = false := by decide
      by_cases h1 : c == '"'
      · have hc : escChar c = [backslashChar, '"'] := by simp [escChar, h1]
        rw [hc]
        have hb1 : quoteOk prev backslashChar = true := by simp [quoteOk, hbq]
        have hb2 : quoteOk (some backslashChar) '"' = true := by decide
        simp [quotesEscapedAux, hb1, hb2, ih]
      · by_cases h2 : c == quoteChar
        · have hc : escChar c = [backslashChar, quoteChar] := by simp [escChar, h1, h2]
          rw [hc]
          have hb1 : quoteOk prev backslashChar = true := by simp [quoteOk, hbq]
          have hb2 : quoteOk (some backslashChar) quoteChar = true := by decide
          simp [quotesEscapedAux, hb1, hb2, ih]
        · have hc : escChar c = [c] := by simp [escChar, h1, h2]
          rw [hc]
          have hb1 : quoteOk prev c = true := by
            simp [quoteOk, h1, h2]
          simp [quotesEscapedAux, hb1, ih]

lemma escapeSql_quotesEscaped (s : String) : quotesEscaped (escapeSql s).data = true :=
  quotesEscapedAux_flatMap s.data none

lemma newArch_eq_spec (frag : XmlNode) : newArchOf frag = specSerializePayload frag := by
  unfold newArchOf specSerializePayload
  rw [foldl_append_tostring]

/-- C5: for every located fragment, the serialized payload is the
concatenation of the raw markup of the fragment's direct children in
document order, wrapped in a single data envelope exactly when the fragment
has more than one direct child (never when it has exactly one), prefixed by
the XML declaration header and a newline, and with every double-quote and
single-quote character of the result escaped by a preceding backslash. -/
theorem C5_serializer_output_shape (frag : XmlNode) :
    newArchOf frag = specSerializePayload frag ∧
    quotesEscaped (newArchOf frag).data = true :=
  ⟨newArch_eq_spec frag, escapeSql_quotesEscaped _⟩

/-- A qweb source document: one `template` with id `x` holding a single
`div` child. -/
def qwebDoc : XmlNode :=
  .elem "odoo" [] [.elem "template" [("id", "x")] [.elem "div" [] []]]

/-- The template element inside `qwebDoc`. -/
def templX : XmlNode := .elem "template" [("id", "x")] [.elem "div" [] []]

/-- Environment in which `q.xml` parses to `qwebDoc` and every UPDATE
succeeds. -/
def envQ : VEnv :=
  { readFile := fun p => if p == "q.xml" then .doc qwebDoc else .missing
    updateOk := fun _ => true }

/-- C6 counterexample: on a qweb view whose document contains a template
with the requested id, the located fragment is indeed the template element
itself, but the payload written to the store serializes only the template's
direct children — it does not contain the template element's own markup
(the substring `template` never occurs in the payload, although it occurs
in `tostring` of the fragment). -/
theorem C6_qweb_payload_counterexample :
    findTemplates "x" qwebDoc = [templX] ∧
    xml2arch envQ "mymod" "x" "x" 7 "qweb" none (some "q.xml") =
      ({ nw := 0, ne := 0, nc := 1 },
        [{ payload := newArchOf templX, viewId := 7 }]) ∧
    containsSub (newArchOf templX) "template" = false ∧
    containsSub (tostring templX) "template" = true :=
  ⟨rfl, rfl, by decide, by decide⟩

/-- C6 amended: for every qweb document, every fragment located for the
requested identifier is a `template` element itself (not one of its
children) carrying that id, and the serialized payload written to the store
is built from the template's direct children (concatenated, data-wrapped
when more than one, with header and escaping) — the template element's own
tag is not part of the payload. -/
theorem C6_qweb_fragment_located (root : XmlNode) (rid : String) (frag : XmlNode)
    (h : frag ∈ findTemplates rid root) :
    frag.tag = "template" ∧ getAttr frag "id" = some rid ∧
    newArchOf frag = specSerializePayload frag := by
  have h' := List.mem_filter.mp h
  have hp := h'.2
  rw [Bool.and_eq_true] at hp
  refine ⟨?_, ?_, newArch_eq_spec frag⟩
  · exact beq_iff_eq.mp hp.1
  · exact beq_iff_eq.mp hp.2

/-- Witness for the amended C6 statement at the concrete qweb document. -/
theorem C6_qweb_fragment_located_witness :
    XmlNode.tag templX = "template" ∧ getAttr templX "id" = some "x" ∧
    newArchOf templX = specSerializePayload templX :=
  C6_qweb_fragment_located qwebDoc "x" templX (List.Mem.head _)

/-- A parsed document containing no record fragments at all. -/
def docEmpty : XmlNode := .elem "odoo" [] []

/-- A parsed document with record `v2` holding an `arch` field with one
`form` child. -/
def docV2 : XmlNode :=
  .elem "odoo" []
    [.elem "record" [("id", "v2")]
      [.elem "field" [("name", "arch")] [.elem "form" [] []]]]

/-- Environment for the two-binding batch: binding `v1`'s file parses but
holds no matching fragment, binding `v2`'s file succeeds. -/
def envBatch : VEnv :=
  { readFile := fun p =>
      if p == "m/views/a.xml" then .doc docEmpty
      else if p == "m/views/b.xml" then .doc docV2
      else .missing
    updateOk := fun _ => true }

/-- Matched row whose fragment location fails. -/
def rowV1 : ViewRow :=
  { imd_id := 1, view_id := 11, model := "ir.ui.view", vtype := "form",
    arch_fs := "m/views/a.xml", name := "v1", active := true, noupdate := false }

/-- Matched row whose synchronization succeeds. -/
def rowV2 : ViewRow :=
  { imd_id := 2, view_id := 12, model := "ir.ui.view", vtype := "form",
    arch_fs := "m/views/b.xml", name := "v2", active := true, noupdate := false }

/-- C1: the claim says a non-watch arch pass returns the elementwise sum of
the per-binding `xml2arch` tallies (errors `K`, applied `N - K` when exactly
`K` bindings fail at fragment location).  The code instead REASSIGNS the
tally on each iteration (line 582), so with binding 1 failing at fragment
location and binding 2 succeeding the pass returns `(0, 0, 1)` — binding 1's
error is discarded — while the per-binding results sum to `(0, 1, 1)`.
(The pass does keep processing after the failure: binding 2's write is
still executed.) -/
theorem C1_batch_tally_overwritten :
    update_view_arch envBatch [] "m" "%" none none [rowV1, rowV2] =
      ({ nw := 0, ne := 0, nc := 1 },
        [{ payload := newArchOf (.elem "field" [("name", "arch")] [.elem "form" [] []]),
           viewId := 12 }]) ∧
    sumResults (perRowResults envBatch [] "m" "%" none none [rowV1, rowV2]) =
      { nw := 0, ne := 1, nc := 1 } :=
  ⟨rfl, rfl⟩

/-- The watch-mode handler configuration for a healthy `form` binding whose
file is `w/views.xml`. -/
def cfgW : HandlerCfg :=
  { module := "m", id := "v1", model := "ir.ui.view", model_data_name := "v1",
    view_id := 11, view_type := "form", source_id := none,
    filename := "w/views.xml" }

/-- Document for the watched binding. -/
def docW : XmlNode :=
  .elem "odoo" []
    [.elem "record" [("id", "v1")]
      [.elem "field" [("name", "arch")] [.elem "form" [] []]]]

/-- Environment in which the watched file parses and the UPDATE succeeds. -/
def envW : VEnv :=
  { readFile := fun p => if p == "w/views.xml" then .doc docW else .missing
    updateOk := fun _ => true }

/-- Environment in which the watched file exists but no longer parses. -/
def envWBad : VEnv :=
  { readFile := fun p => if p == "w/views.xml" then .parseFailed else .missing
    updateOk := fun _ => true }

/-- Handler state at construction time 0 (`last_modified = datetime.now()`,
counters zero). -/
def st0 : HandlerState :=
  { last_modified := 0, nwarnings := 0, nerrors := 0, ncommits := 0 }

/-- A `modified` filesystem event for the watched file at time `t`
(milliseconds). -/
def evW (t : Nat) : FsEvent :=
  { now := t, isFileModifiedEvent := true, event_type := "modified",
    src_path := "w/views.xml" }

/-- C2: the claim says two `modified` events for the same resolved file
less than the 1-second quiescence interval apart trigger at most one
re-apply.  The code compares `now` against `self.last_modified`, which is
set at construction and NEVER updated, so both events at 2000ms and 2200ms
(200ms apart) are processed — two `xml2arch` calls, two applies.  The only
events the code drops are those within 1 second of handler CREATION, as the
third conjunct shows. -/
theorem C2_debounce_never_rearmed :
    2200 - 2000 < 1000 ∧
    (runSession cfgW st0 [{ env := envW, ev := evW 2000 },
                          { env := envW, ev := evW 2200 }]).calls = 2 ∧
    (runSession cfgW st0 [{ env := envW, ev := evW 2000 },
                          { env := envW, ev := evW 2200 }]).total.nc = 2 ∧
    (runSession cfgW st0 [{ env := envW, ev := evW 500 }]).calls = 0 :=
  ⟨by norm_num, rfl, rfl, rfl⟩

/-- Handler configuration for a binding of unsupported view kind
`kanban`. -/
def cfgK : HandlerCfg :=
  { module := "m", id := "v1", model := "ir.ui.view", model_data_name := "v1",
    view_id := 13, view_type := "kanban", source_id := none,
    filename := "k.xml" }

/-- Environment in which `k.xml` parses (to a document without fragments —
irrelevant, the kind is rejected first). -/
def envK : VEnv :=
  { readFile := fun p => if p == "k.xml" then .doc docEmpty else .missing
    updateOk := fun _ => true }

/-- A `modified` event for `k.xml` at time `t`. -/
def evK (t : Nat) : FsEvent :=
  { now := t, isFileModifiedEvent := true, event_type := "modified",
    src_path := "k.xml" }

/-- C3: the claim says each accepted event's (warnings, errors, applied)
tally is added componentwise to the session totals.  The code unpacks the
`xml2arch` tuple `(nw, ne, nc)` into `_ne, _nw, _nc` (line 499) — warnings
and errors swapped — so an event producing exactly one WARNING (unsupported
kind) leaves the session with `nerrors = 1` and `nwarnings = 0`. -/
theorem C3_session_counters_swapped :
    (runSession cfgK st0 [{ env := envK, ev := evK 2000 }]).total =
      { nw := 1, ne := 0, nc := 0 } ∧
    (runSession cfgK st0 [{ env := envK, ev := evK 2000 }]).st.nerrors = 1 ∧
    (runSession cfgK st0 [{ env := envK, ev := evK 2000 }]).st.nwarnings = 0 :=
  ⟨rfl, rfl, rfl⟩

/-- C4 counterexample: in watch mode the commit in `on_modified` is gated
only on `self.ncommits > 0`, not on the error count.  First event: apply
succeeds (`ncommits` becomes 1, no commit yet).  Second event: the file no
longer parses, one error is tallied — and then the commit IS issued because
`ncommits > 0`.  So a commit occurs in an execution whose accumulated error
count is 1, contradicting the claim. -/
theorem C4_watch_commit_despite_errors :
    (runSession cfgW st0 [{ env := envW, ev := evW 2000 },
                          { env := envWBad, ev := evW 4000 }]).commits = 1 ∧
    (runSession cfgW st0 [{ env := envW, ev := evW 2000 },
                          { env := envWBad, ev := evW 4000 }]).total.ne = 1 ∧
    (runSession cfgW st0 [{ env := envW, ev := evW 2000 }]).commits = 0 :=
  ⟨rfl, rfl, rfl⟩

/-- C4 amended: in one-shot mode the `__main__` gate commits only when the
returned error count is zero and the applied count is positive (with the
optional interactive confirmation); in watch mode, however, each accepted
matching event issues a commit exactly when some earlier accepted event
staged a write (`self.ncommits > 0` at event time), regardless of the error
count. -/
theorem C4_commit_gating_amended :
    (∀ (ne nc : Nat) (confirmRequired userYes : Bool),
      mainCommits ne nc confirmRequired userYes = true → ne = 0 ∧ 0 < nc) ∧
    (∀ (env : VEnv) (cfg : HandlerCfg) (st : HandlerState) (ev : FsEvent),
      (on_modified env cfg st ev).committed = true ↔
        (1000 ≤ ev.now - st.last_modified ∧
          (ev.isFileModifiedEvent && ev.event_type == "modified" &&
            cfg.filename == normpath ev.src_path) = true ∧
          0 < st.ncommits)) := by
  constructor
  · intro ne nc cR uY h
    unfold mainCommits at h
    split at h
    · exact absurd h (by simp)
    · split at h
      · next h1 h2 => exact ⟨by omega, h2⟩
      · exact absurd h (by simp)
  · intro env cfg st ev
    unfold on_modified
    by_cases h1 : 1000 ≤ ev.now - st.last_modified
    · rw [if_pos h1]
      by_cases h2 : (ev.isFileModifiedEvent && ev.event_type == "modified" &&
          cfg.filename == normpath ev.src_path) = true
      · rw [if_pos h2]
        simp only [decide_eq_true_eq]
        exact ⟨fun h => ⟨h1, h2, h⟩, fun h => h.2.2⟩
      · rw [if_neg h2]
        simp only [Bool.false_eq_true, false_iff]
        intro h
        exact h2 h.2.1
    · rw [if_neg h1]
      simp only [Bool.false_eq_true, false_iff]
      intro h
      exact h1 h.1

/-- Witness for the one-shot half of the amended C4 gate at the concrete
tally (0 errors, 1 applied, no confirmation required). -/
theorem C4_commit_gating_amended_witness : (0 : Nat) = 0 ∧ 0 < 1 :=
  C4_commit_gating_amended.1 0 1 false true (by decide)

lemma firstExisting_map_none (env : VEnv) (f : String → String) :
    ∀ l : List String, firstExisting env (l.map f) = none →
      ∀ p ∈ l, fileExists env (f p) = false := by
  intro l
  induction l with
  | nil => intro _ p hp; cases hp
  | cons a l ih =>
      intro h p hp
      rw [List.map_cons] at h
      unfold firstExisting at h
      by_cases ha : fileExists env (f a)
      · rw [if_pos ha] at h; cases h
      · rw [if_neg ha] at h
        rcases List.mem_cons.mp hp with rfl | hp'
        · exact Bool.eq_false_iff.mpr ha
        · exact ih h p hp'

lemma firstExisting_map_some (env : VEnv) (f : String → String) :
    ∀ (l : List String) (r : String), firstExisting env (l.map f) = some r →
      ∃ pre p post, l = pre ++ p :: post ∧ r = f p ∧ fileExists env (f p) = true ∧
        ∀ q ∈ pre, fileExists env (f q) = false := by
  intro l
  induction l with
  | nil => intro r h; cases h
  | cons a l ih =>
      intro r h
      rw [List.map_cons] at h
      unfold firstExisting at h
      by_cases ha : fileExists env (f a)
      · rw [if_pos ha] at h
        refine ⟨[], a, l, rfl, (Option.some.inj h).symm, ha, ?_⟩
        intro q hq; cases hq
      · rw [if_neg ha] at h
        obtain ⟨pre, p, post, hl, hr, hex, hpre⟩ := ih r h
        refine ⟨a :: pre, p, post, by rw [hl, List.cons_append], hr, hex, ?_⟩
        intro q hq
        rcases List.mem_cons.mp hq with rfl | hq'
        · exact Bool.eq_false_iff.mpr ha
        · exact hpre q hq'

/-- C7: path resolution follows strict priority.  When the configured
search-path list is non-empty the explicit filename is ignored and the
chosen file is the first search-path entry joined with the stored relative
path that exists on disk; if none exists, resolution yields no file and the
subsequent `xml2arch` call produces exactly one error and no store write.
When the search-path list is empty, the explicit filename is used verbatim
when provided, else the stored relative path itself. -/
theorem C7_path_resolution_priority (env : VEnv) (addons_path : List String)
    (_filename : Option String) (arch_fs : String) :
    (addons_path ≠ [] →
      (∀ alt : Option String,
        resolveFn env addons_path alt arch_fs =
          resolveFn env addons_path _filename arch_fs) ∧
      (resolveFn env addons_path _filename arch_fs = none →
        (∀ p ∈ addons_path, fileExists env (pathJoin p arch_fs) = false) ∧
        ∀ (m i n : String) (vid : Nat) (vt : String) (sid : Option String),
          xml2arch env m i n vid vt sid none = ({ nw := 0, ne := 1, nc := 0 }, [])) ∧
      (∀ r, resolveFn env addons_path _filename arch_fs = some r →
        ∃ pre p post, addons_path = pre ++ p :: post ∧ r = pathJoin p arch_fs ∧
          fileExists env r = true ∧
          ∀ q ∈ pre, fileExists env (pathJoin q arch_fs) = false)) ∧
    (addons_path = [] →
      resolveFn env addons_path _filename arch_fs = some (_filename.getD arch_fs)) := by
  constructor
  · intro hne
    match addons_path, hne with
    | a :: l, _ =>
      refine ⟨fun alt => rfl, fun hnone => ⟨?_, fun m i n vid vt sid => rfl⟩, ?_⟩
      · exact firstExisting_map_none env (fun pt => pathJoin pt arch_fs) (a :: l) hnone
      · intro r hsome
        obtain ⟨pre, p, post, hl, hr, hex, hpre⟩ :=
          firstExisting_map_some env (fun pt => pathJoin pt arch_fs) (a :: l) r hsome
        exact ⟨pre, p, post, hl, hr, by rw [hr]; exact hex, hpre⟩
  · intro hnil
    subst hnil
    rfl

/-- Environment for the C7 witness: only `p2/rel.xml` exists. -/
def envP : VEnv :=
  { readFile := fun p => if p == "p2/rel.xml" then .doc docEmpty else .missing
    updateOk := fun _ => true }

/-- Witness for C7: with search paths `[p1, p2]` where only the `p2` join
exists, resolution (explicit filename notwithstanding) picks the first
existing join, namely `p2/rel.xml`. -/
theorem C7_path_resolution_priority_witness :
    ∃ pre p post, (["p1", "p2"] : List String) = pre ++ p :: post ∧
      pathJoin "p2" "rel.xml" = pathJoin p "rel.xml" ∧
      fileExists envP (pathJoin "p2" "rel.xml") = true ∧
      ∀ q ∈ pre, fileExists envP (pathJoin q "rel.xml") = false :=
  ((C7_path_resolution_priority envP ["p1", "p2"] (some "explicit.xml")
      "rel.xml").1 (by simp)).2.2 (pathJoin "p2" "rel.xml") rfl

/-- C8: fragment-lookup failure policy, for any attempt whose file resolves
and parses to a document.  A view kind outside form/tree/qweb yields exactly
one warning, zero errors and no store write; a supported kind whose document
yields zero fragment matches for the resolved identifier yields exactly one
error and no store write. -/
theorem C8_fragment_lookup_failure_policy (env : VEnv) (m i n : String)
    (vid : Nat) (vt : String) (sid : Option String) (f : String) (root : XmlNode)
    (hdoc : env.readFile f = .doc root) :
    (vt ≠ "form" → vt ≠ "tree" → vt ≠ "qweb" →
      xml2arch env m i n vid vt sid (some f) = ({ nw := 1, ne := 0, nc := 0 }, [])) ∧
    ((vt = "form" ∨ vt = "tree") → findRecordArch (ridOf sid i n) root = [] →
      xml2arch env m i n vid vt sid (some f) = ({ nw := 0, ne := 1, nc := 0 }, [])) ∧
    (vt = "qweb" → findTemplates (ridOf sid i n) root = [] →
      xml2arch env m i n vid vt sid (some f) = ({ nw := 0, ne := 1, nc := 0 }, [])) := by
  refine ⟨?_, ?_, ?_⟩
  · intro h1 h2 h3
    simp only [xml2arch, hdoc]
    rw [if_neg (by simp [h1, h2]), if_neg (by simp [h3])]
  · intro hvt hempty
    simp only [xml2arch, hdoc]
    rw [if_pos (by rcases hvt with rfl | rfl <;> simp), hempty]
    rfl
  · intro hvt hempty
    subst hvt
    simp only [xml2arch, hdoc]
    rw [if_neg (by simp), if_pos (by simp), hempty]
    rfl

/-- Environment for the C8 witness: `k.xml` parses to a document. -/
def envK8 : VEnv :=
  { readFile := fun p => if p == "k.xml" then .doc docEmpty else .missing
    updateOk := fun _ => true }

/-- Witness for C8: an attempt on a `kanban` view whose file parses yields
exactly one warning, zero errors and no write. -/
theorem C8_fragment_lookup_failure_policy_witness :
    xml2arch envK8 "m" "v" "v" 5 "kanban" none (some "k.xml") =
      ({ nw := 1, ne := 0, nc := 0 }, []) :=
  (C8_fragment_lookup_failure_policy envK8 "m" "v" "v" 5 "kanban" none "k.xml"
      docEmpty rfl).1 (by decide) (by decide) (by decide)

lemma filter_length_lt {α : Type} (p : α → Bool) (l : List α) (a : α)
    (ha : a ∈ l) (hpa : p a = false) : (l.filter p).length < l.length := by
  induction l with
  | nil => cases ha
  | cons b l ih =>
      rcases List.mem_cons.mp ha with rfl | ha'
      · rw [List.filter_cons, hpa]
        simp only [List.length_cons]
        exact Nat.lt_succ_of_le (List.length_filter_le p l)
      · by_cases hb : p b
        · rw [List.filter_cons, hb]
          simp only [List.length_cons, if_true]
          exact Nat.succ_lt_succ (ih ha')
        · rw [List.filter_cons, Bool.eq_false_iff.mpr hb]
          simp only [List.length_cons]
          exact Nat.lt_succ_of_lt (ih ha')

/-- C9: ordering-clause validation is fail-fast.  In both listing
operations, an order-by clause containing any token outside the allowed set
returns exactly one error and zero applied with NO query executed; when the
clause is omitted the default ordering token is used (`model` — the
external-identifier relation's column — for `list_model`, `id` for
`list_users`) and exactly one SELECT with that ordering runs. -/
theorem C9_order_by_validation :
    (∀ (mn mt : String) (i m : Option String) (ob t : String),
      t ∈ splitOnComma ob → t ∉ (["model", "module", "name"] : List String) →
      list_model mn mt i m (some ob) = ({ nw := 0, ne := 1, nc := 0 }, [])) ∧
    (∀ (mn mt : String) (i m : Option String),
      list_model mn mt i m none =
        ({ nw := 0, ne := 0, nc := 0 },
          [listModelQry mn mt (whereModel i m) "ir_model_data.model"])) ∧
    (∀ (mt : String) (i l : Option String) (ob t : String),
      t ∈ splitOnComma ob → t ∉ (["id", "login"] : List String) →
      list_users mt i l (some ob) = ({ nw := 0, ne := 1, nc := 0 }, [])) ∧
    (∀ (mt : String) (i l : Option String),
      list_users mt i l none =
        ({ nw := 0, ne := 0, nc := 0 }, [listUsersQry mt (whereUsers i l) "id"])) := by
  refine ⟨?_, fun mn mt i m => rfl, ?_, fun mt i l => rfl⟩
  · intro mn mt i m ob t ht htn
    have hp : ((["model", "module", "name"] : List String).contains t) = false := by
      simp [htn]
    have hlt := filter_length_lt
      (fun a => (["model", "module", "name"] : List String).contains a)
      (splitOnComma ob) t ht hp
    unfold list_model
    simp only [Option.getD]
    rw [if_pos (by omega)]
  · intro mt i l ob t ht htn
    have hp : ((["id", "login"] : List String).contains t) = false := by
      simp [htn]
    have hlt := filter_length_lt
      (fun a => (["id", "login"] : List String).contains a)
      (splitOnComma ob) t ht hp
    unfold list_users
    simp only [Option.getD]
    rw [if_pos (by omega)]

/-- Witness for C9: the clause `model,foo` contains the disallowed token
`foo`, so `list_model` fails validation with one error and executes no
query. -/
theorem C9_order_by_validation_witness :
    list_model "ir.ui.view" "ir_ui_view" none none (some "model,foo") =
      ({ nw := 0, ne := 1, nc := 0 }, []) :=
  C9_order_by_validation.1 "ir.ui.view" "ir_ui_view" none none "model,foo" "foo"
    (by decide) (by decide)

/-- C10: `str2bool` accepts exactly the case-insensitive tokens
true/false/1/0/t/f, rejecting every other string (`ValueError`, here
`none`), but returns `true` only for `true` and `1`; in particular the
accepted token `t` parses as `false`, so a `set.view.active` or
`set.noupdate` invocation with value `t` passes validation yet stages a
write setting the flag to false. -/
theorem C10_str2bool_semantics :
    (∀ s : String, (str2bool s).isSome =
      (["true", "false", "1", "0", "t", "f"] : List String).contains (lowerStr s)) ∧
    (∀ s : String, str2bool s = some true ↔
      (lowerStr s = "true" ∨ lowerStr s = "1")) ∧
    str2bool "t" = some false ∧ str2bool "T" = some false ∧
    set_value "active" "ir.ui.view" "ir_ui_view" "t"
        [{ id := 3, name := "v", res_id := 9, model := "ir.ui.view",
           noupdate := false }] =
      ({ nw := 0, ne := 0, nc := 1 },
        [{ table := "ir_ui_view", field := "active", value := false, rowId := 9 }]) ∧
    set_value "noupdate" "ir.model.data" "ir_model_data" "t"
        [{ id := 3, name := "v", res_id := 9, model := "ir.ui.view",
           noupdate := false }] =
      ({ nw := 0, ne := 0, nc := 1 },
        [{ table := "ir_model_data", field := "noupdate", value := false,
           rowId := 3 }]) := by
  refine ⟨?_, ?_, rfl, rfl, rfl, rfl⟩
  · intro s
    unfold str2bool
    by_cases h : ((["true", "false", "1", "0", "t", "f"] : List String).contains
        (lowerStr s)) = true
    · rw [if_pos h, h]; rfl
    · rw [if_neg h, Bool.eq_false_iff.mpr h]; rfl
  · intro s
    unfold str2bool
    by_cases h : ((["true", "false", "1", "0", "t", "f"] : List String).contains
        (lowerStr s)) = true
    · rw [if_pos h]
      constructor
      · intro hsome
        have := Option.some.inj hsome
        have hmem : lowerStr s ∈ (["true", "1"] : List String) := by
          simpa using this
        simpa using hmem
      · intro hor
        have hmem : lowerStr s ∈ (["true", "1"] : List String) := by
          rcases hor with h1 | h1 <;> simp [h1]
        congr 1
        simpa using hmem
    · rw [if_neg h]
      constructor
      · intro hsome; cases hsome
      · intro hor
        exfalso
        apply h
        have hmem : lowerStr s ∈ (["true", "false", "1", "0", "t", "f"] : List String) := by
          rcases hor with h1 | h1 <;> simp [h1]
        simpa using hmem
